import Mathlib

set_option maxHeartbeats 1000000

/-!
Verification development for `basicsr/archs/codeformer_arch_2.py`.

Tensors are modelled as shape-carrying records whose entries are total
functions from indices to scalars.  The main pipeline uses rational scalars
for the float values; the sinusoidal position encoder is modelled over the
reals so that `sin`, `cos`, `pi` and real powers are exact.  External torch
modules that carry their own weights and whose internals the source never
inspects (`nn.LayerNorm`, `nn.MultiheadAttention`) appear as abstract
function fields; `nn.Linear` and `nn.Embedding` are given their standard
semantics.  The `VQVAE` base class lives in `vqvae_arch.py`, which is not
among the sources; the few members the orchestrator touches are modelled
from the spec and marked as such.
-/

/-- Rank-2 float tensor: shape `(d0, d1)` with a total data function. -/
structure Tensor2 where
  d0 : ℕ
  d1 : ℕ
  data : ℕ → ℕ → ℚ

/-- Rank-3 float tensor, used for the `(L, B, C)` / `(B, L, C)` sequences. -/
structure Tensor3 where
  d0 : ℕ
  d1 : ℕ
  d2 : ℕ
  data : ℕ → ℕ → ℕ → ℚ

/-- Rank-4 float tensor, used for image batches and latent feature maps. -/
structure Tensor4 where
  d0 : ℕ
  d1 : ℕ
  d2 : ℕ
  d3 : ℕ
  data : ℕ → ℕ → ℕ → ℕ → ℚ

/-- Rank-2 integer tensor: a `(B, L)` batch of token-id sequences. -/
structure IndexTensor2 where
  d0 : ℕ
  d1 : ℕ
  data : ℕ → ℕ → ℕ

/-- Rank-2 boolean tensor (torch key-padding masks). -/
structure BoolTensor2 where
  d0 : ℕ
  d1 : ℕ
  data : ℕ → ℕ → Bool

def Tensor3.zero : Tensor3 := ⟨0, 0, 0, fun _ _ _ => 0⟩

def IndexTensor2.zero : IndexTensor2 := ⟨0, 0, fun _ _ => 0⟩

/-- Pointwise tensor addition (torch `+` between equal-shaped tensors). -/
def Tensor3.add (a b : Tensor3) : Tensor3 :=
  ⟨a.d0, a.d1, a.d2, fun i j k => a.data i j k + b.data i j k⟩

/-- torch `permute(1, 0, 2)` on a rank-3 tensor. -/
def Tensor3.permute102 (t : Tensor3) : Tensor3 :=
  ⟨t.d1, t.d0, t.d2, fun i j k => t.data j i k⟩

/-- torch `unsqueeze(1)` on a rank-2 tensor: insert a broadcast middle axis. -/
def Tensor2.unsqueeze1 (t : Tensor2) : Tensor3 :=
  ⟨t.d0, 1, t.d1, fun i _ k => t.data i k⟩

/-- torch `repeat(1, n, 1)`: tile the middle axis `n` times. -/
def Tensor3.repeatDim1 (t : Tensor3) (n : ℕ) : Tensor3 :=
  ⟨t.d0, t.d1 * n, t.d2, fun i j k => t.data i (j % t.d1) k⟩

/-- torch `cat(dim=1)` over a list of rank-3 tensors; the other dims are the
first element's (torch requires them to agree). -/
def catDim1 : List Tensor3 → Tensor3
  | [] => Tensor3.zero
  | t :: ts =>
    let r := catDim1 ts
    ⟨t.d0, t.d1 + r.d1, t.d2, fun b l d =>
      if l < t.d1 then t.data b l d else r.data b (l - t.d1) d⟩

/-- Lift a map on last-dim vectors over a rank-3 tensor (this is how the
per-vector `nn.LayerNorm` acts on a `(L, B, C)` sequence). -/
def Tensor3.mapVec (f : (ℕ → ℚ) → ℕ → ℚ) (t : Tensor3) : Tensor3 :=
  ⟨t.d0, t.d1, t.d2, fun a b => f (t.data a b)⟩

/-- torch `nn.Linear`: `y = x Wᵀ + b` applied to the last dim. -/
structure Linear where
  inF : ℕ
  outF : ℕ
  weight : ℕ → ℕ → ℚ
  bias : Option (ℕ → ℚ)

def Linear.apply (l : Linear) (t : Tensor3) : Tensor3 :=
  ⟨t.d0, t.d1, l.outF, fun a b o =>
    (∑ j in Finset.range l.inF, l.weight o j * t.data a b j) +
      (match l.bias with
       | none => 0
       | some bf => bf o)⟩

/-- torch `nn.Embedding`: an id-to-vector lookup table. -/
structure Embedding where
  num_embeddings : ℕ
  embedding_dim : ℕ
  weight : ℕ → ℕ → ℚ

def Embedding.zero : Embedding := ⟨0, 0, fun _ _ => 0⟩

/-- Embedding lookup of a `(B, L)` id tensor, giving `(B, L, embedding_dim)`. -/
def Embedding.lookup (e : Embedding) (idx : IndexTensor2) : Tensor3 :=
  ⟨idx.d0, idx.d1, e.embedding_dim, fun b l d => e.weight (idx.data b l) d⟩

/-- Modelled from the spec: `torch.nn.Dropout` (an external torch module).
Every dropout probability in this model is fixed at 0 and the spec pins that
down ("attention and feed-forward dropout are configurable probabilities
(default 0 — inference mode has no stochastic dropout)"); with probability 0
dropout passes its input through unchanged, which is the only behaviour
modelled here.  The probability is kept as data. -/
structure Dropout where
  p : ℚ

def Dropout.apply (_d : Dropout) (t : Tensor3) : Tensor3 := t

/-- The activation names `_get_activation_fn` (lines 91-99) can resolve:
`F.relu`, `F.gelu`, `F.glu`. -/
inductive ActivationKind where
  | relu
  | gelu
  | glu
deriving DecidableEq

/-- The external torch functionals `F.relu` / `F.gelu` / `F.glu`, abstract. -/
structure FPrims where
  relu : Tensor3 → Tensor3
  gelu : Tensor3 → Tensor3
  glu : Tensor3 → Tensor3

def ActivationKind.apply (a : ActivationKind) (P : FPrims) (t : Tensor3) : Tensor3 :=
  match a with
  | .relu => P.relu t
  | .gelu => P.gelu t
  | .glu => P.glu t

/-- Source lines 91-99: return an activation function given a string, or
raise `RuntimeError` for an unsupported name. -/
def _get_activation_fn (activation : String) : Except String ActivationKind :=
  if activation = ("relu") then Except.ok ActivationKind.relu
  else if activation = ("gelu") then Except.ok ActivationKind.gelu
  else if activation = ("glu") then Except.ok ActivationKind.glu
  else Except.error ("activation should be relu/gelu, not " ++ activation ++ ".")

/-- Source lines 102-137: one self-attention block.  `self_attn` stands for
the external `nn.MultiheadAttention` (arguments: query, key, value,
attn_mask, key_padding_mask; the source keeps component `[0]` of its result);
`norm1`/`norm2` stand for the external per-vector `nn.LayerNorm` modules. -/
structure TransformerSALayer where
  self_attn : Tensor3 → Tensor3 → Tensor3 → Option Tensor3 → Option BoolTensor2 → Tensor3
  linear1 : Linear
  dropout : Dropout
  linear2 : Linear
  norm1 : (ℕ → ℚ) → ℕ → ℚ
  norm2 : (ℕ → ℚ) → ℕ → ℚ
  dropout1 : Dropout
  dropout2 : Dropout
  activation : ActivationKind

/-- The freshly drawn weights of the torch modules a `TransformerSALayer`
creates (their random default init, supplied externally). -/
structure LayerWeights where
  attn : Tensor3 → Tensor3 → Tensor3 → Option Tensor3 → Option BoolTensor2 → Tensor3
  w1 : ℕ → ℕ → ℚ
  b1 : ℕ → ℚ
  w2 : ℕ → ℕ → ℚ
  b2 : ℕ → ℚ
  n1 : (ℕ → ℚ) → ℕ → ℚ
  n2 : (ℕ → ℚ) → ℕ → ℚ

/-- The record a successful `TransformerSALayer.__init__` builds: `linear1 :
embed_dim → dim_mlp`, `linear2 : dim_mlp → embed_dim`, all three dropout
modules with the same probability (`nhead` lives inside the abstract
attention function). -/
def mkSALayer (embed_dim nhead dim_mlp : ℕ) (dropout : ℚ) (a : ActivationKind)
    (w : LayerWeights) : TransformerSALayer :=
  { self_attn := w.attn
    linear1 := ⟨embed_dim, dim_mlp, w.w1, some w.b1⟩
    dropout := ⟨dropout⟩
    linear2 := ⟨dim_mlp, embed_dim, w.w2, some w.b2⟩
    norm1 := w.n1
    norm2 := w.n2
    dropout1 := ⟨dropout⟩
    dropout2 := ⟨dropout⟩
    activation := a }

/-- Source lines 103-116: `TransformerSALayer.__init__`; the `RuntimeError`
of `_get_activation_fn` (line 116) propagates out of the constructor. -/
def TransformerSALayer.init (embed_dim nhead dim_mlp : ℕ) (dropout : ℚ)
    (activation : String) (w : LayerWeights) : Except String TransformerSALayer :=
  Except.map (fun a => mkSALayer embed_dim nhead dim_mlp dropout a w)
    (_get_activation_fn activation)

/-- Source lines 118-119: `tensor if pos is None else tensor + pos`. -/
def with_pos_embed (t : Tensor3) (pos : Option Tensor3) : Tensor3 :=
  match pos with
  | none => t
  | some p => t.add p

/-- Source lines 121-137: `TransformerSALayer.forward`. -/
def TransformerSALayer.forward (P : FPrims) (l : TransformerSALayer) (tgt : Tensor3)
    (tgt_mask : Option Tensor3) (tgt_key_padding_mask : Option BoolTensor2)
    (query_pos : Option Tensor3) : Tensor3 :=
  let tgt2 := tgt.mapVec l.norm1
  let q := with_pos_embed tgt2 query_pos
  let k := with_pos_embed tgt2 query_pos
  let att := l.self_attn q k tgt2 tgt_mask tgt_key_padding_mask
  let tgt := tgt.add (l.dropout1.apply att)
  let tgt2 := tgt.mapVec l.norm2
  let tgt2 := l.linear2.apply (l.dropout.apply (l.activation.apply P (l.linear1.apply tgt2)))
  tgt.add (l.dropout2.apply tgt2)

/-- Rank-4 real tensor (for the sinusoidal position encoder). -/
structure RTensor4 where
  d0 : ℕ
  d1 : ℕ
  d2 : ℕ
  d3 : ℕ
  data : ℕ → ℕ → ℕ → ℕ → ℝ

/-- Rank-3 boolean tensor: the `(B, H, W)` spatial masks. -/
structure BoolTensor3 where
  d0 : ℕ
  d1 : ℕ
  d2 : ℕ
  data : ℕ → ℕ → ℕ → Bool

/-- Source lines 49-64: the sinusoidal position embedding module. -/
structure PositionEmbeddingSine where
  num_pos_feats : ℕ
  temperature : ℕ
  normalize : Bool
  scale : ℝ

/-- Source lines 55-64: `PositionEmbeddingSine.__init__`; passing an explicit
scale while `normalize` is `False` raises `ValueError`, and a missing scale
defaults to `2 * math.pi`. -/
noncomputable def PositionEmbeddingSine.init (num_pos_feats temperature : ℕ)
    (normalize : Bool) (scale : Option ℝ) : Except String PositionEmbeddingSine :=
  if scale.isSome = true ∧ normalize = false then
    Except.error ("normalize should be True if scale is passed")
  else
    Except.ok ⟨num_pos_feats, temperature, normalize,
      match scale with
      | none => 2 * Real.pi
      | some s => s⟩

/-- Source lines 66-89: `PositionEmbeddingSine.forward`.  `y_embed`/`x_embed`
are the cumulative sums of the unmasked-pixel indicator along dims 1 and 2;
`dim_t d = temperature ** (2 * (d // 2) / num_pos_feats)` (a float power);
the `stack((a[0::2].sin(), a[1::2].cos()), dim=4).flatten(3)` pattern puts
`sin (a c)` at even channels `c` and `cos (a c)` at odd ones; `cat(dim=3)`
then `permute(0, 3, 1, 2)` yields a `(B, 2*num_pos_feats, H, W)` tensor with
the y-block first. -/
noncomputable def PositionEmbeddingSine.forward (pes : PositionEmbeddingSine)
    (x : RTensor4) (mask : Option BoolTensor3) : RTensor4 :=
  let mask : BoolTensor3 := match mask with
    | none => ⟨x.d0, x.d2, x.d3, fun _ _ _ => false⟩
    | some m => m
  let not_mask : ℕ → ℕ → ℕ → Bool := fun b i j => !(mask.data b i j)
  let y_embed : ℕ → ℕ → ℕ → ℝ := fun b i j =>
    ∑ k in Finset.range (i + 1), (if not_mask b k j then (1 : ℝ) else 0)
  let x_embed : ℕ → ℕ → ℕ → ℝ := fun b i j =>
    ∑ k in Finset.range (j + 1), (if not_mask b i k then (1 : ℝ) else 0)
  let y_embed : ℕ → ℕ → ℕ → ℝ :=
    if pes.normalize then
      fun b i j => y_embed b i j / (y_embed b (mask.d1 - 1) j + 1 / 1000000) * pes.scale
    else y_embed
  let x_embed : ℕ → ℕ → ℕ → ℝ :=
    if pes.normalize then
      fun b i j => x_embed b i j / (x_embed b i (mask.d2 - 1) + 1 / 1000000) * pes.scale
    else x_embed
  let dim_t : ℕ → ℝ := fun d =>
    (pes.temperature : ℝ) ^ (((2 * (d / 2) : ℕ) : ℝ) / (pes.num_pos_feats : ℝ))
  let pos_x : ℕ → ℕ → ℕ → ℕ → ℝ := fun b i j d => x_embed b i j / dim_t d
  let pos_y : ℕ → ℕ → ℕ → ℕ → ℝ := fun b i j d => y_embed b i j / dim_t d
  let pos_x : ℕ → ℕ → ℕ → ℕ → ℝ := fun b i j c =>
    if c % 2 = 0 then Real.sin (pos_x b i j c) else Real.cos (pos_x b i j c)
  let pos_y : ℕ → ℕ → ℕ → ℕ → ℝ := fun b i j c =>
    if c % 2 = 0 then Real.sin (pos_y b i j c) else Real.cos (pos_y b i j c)
  ⟨x.d0, 2 * pes.num_pos_feats, mask.d1, mask.d2, fun b c i j =>
    if c < pes.num_pos_feats then pos_y b i j c
    else pos_x b i j (c - pes.num_pos_feats)⟩

/-- The tokenizer weights (encoder composed with `quant_conv`, and the
residual quantizer), supplied externally: `enc` gives the data function of
the latent produced for an input batch, `quant` gives the raw id the
quantizer emits for (input, scale index, batch index, position). -/
structure VQVAEWeights where
  enc : Tensor4 → ℕ → ℕ → ℕ → ℕ → ℚ
  quant : Tensor4 → ℕ → ℕ → ℕ → ℕ

/-- Modelled from the spec: the `VQVAE` base class of `vqvae_arch.py` (not
among the sources).  Only the configuration the orchestrator passes, the
members it touches (`encoder`/`quant_conv`, `quantize`, `patch_hws`) and the
per-module `requires_grad` state of its parameter groups are modelled; the
`g_*` fields record `requires_grad` for the module of the same name. -/
structure VQVAE where
  vocab_size : ℕ
  z_channels : ℕ
  ch : ℕ
  test_mode : Bool
  share_quant_resi : ℕ
  v_patch_nums : List ℕ
  encFn : Tensor4 → ℕ → ℕ → ℕ → ℕ → ℚ
  quantFn : Tensor4 → ℕ → ℕ → ℕ → ℕ
  g_encoder : Bool
  g_decoder : Bool
  g_quantize : Bool
  g_quant_conv : Bool
  g_post_quant_conv : Bool

/-- Modelled from the spec: `VQVAE.__init__`.  Torch creates every parameter
with `requires_grad=True`, so all five module groups start trainable. -/
def VQVAE.init (vocab_size z_channels ch : ℕ) (test_mode : Bool)
    (share_quant_resi : ℕ) (v_patch_nums : List ℕ) (wts : VQVAEWeights) : VQVAE :=
  ⟨vocab_size, z_channels, ch, test_mode, share_quant_resi, v_patch_nums,
   wts.enc, wts.quant, true, true, true, true, true⟩

/-- Modelled from the spec: `self.patch_hws`, "the ordered list of spatial
scales (pairs of patch height/width)" derived from `v_patch_nums` (the demo
block iterates `(ph, pw)` over it with `ph * pw` summing to 680 for the
configured square scales). -/
def VQVAE.patch_hws (v : VQVAE) : List (ℕ × ℕ) :=
  v.v_patch_nums.map fun p => (p, p)

/-- Modelled from the spec: `self.quant_conv(self.encoder(x))` — the latent
feature map has "fixed channel count and spatial size determined by model
configuration, not input resolution": `z_channels` channels and the largest
configured scale (16 for the configured list) as height and width; the batch
dim is the input's. -/
def VQVAE.encode_quant (v : VQVAE) (x : Tensor4) : Tensor4 :=
  ⟨x.d0, v.z_channels, (v.v_patch_nums.getLast?).getD 0,
   (v.v_patch_nums.getLast?).getD 0, v.encFn x⟩

def VQVAE.f_to_idxBl_aux (v : VQVAE) (f : Tensor4) : ℕ → List (ℕ × ℕ) → List IndexTensor2
  | _, [] => []
  | i, hw :: rest =>
    ⟨f.d0, hw.1 * hw.2, fun b l => v.quantFn f i b l % v.vocab_size⟩ ::
      v.f_to_idxBl_aux f (i + 1) rest

/-- Modelled from the spec: `self.quantize.f_to_idxBl_or_fhat(lq_feat,
to_fhat=False)` — "an ordered sequence of integer tensors, one per scale
`(ph, pw)` ...; each entry's shape is (batch, ph·pw); values are token ids in
`[0, codebook_size)`". -/
def VQVAE.f_to_idxBl (v : VQVAE) (f : Tensor4) : List IndexTensor2 :=
  v.f_to_idxBl_aux f 0 v.patch_hws

/-- Source lines 176-214: the trainable-module state of `CodeFormer2`; the
`g_*` fields record `requires_grad` for the module of the same name. -/
structure CodeFormer2 where
  base : VQVAE
  connect_list : List String
  n_layers : ℕ
  dim_embd : ℕ
  dim_mlp : ℕ
  position_emb : Tensor2
  g_position_emb : Bool
  feat_emb : List Embedding
  g_feat_emb : Bool
  ft_layers : List TransformerSALayer
  g_ft_layers : Bool
  idx_pred_norm : (ℕ → ℚ) → ℕ → ℚ
  idx_pred_linear : Linear
  g_idx_pred_layer : Bool

/-- The freshly drawn default-init weights of every torch module
`CodeFormer2.__init__` creates, supplied externally (one embedding table per
scale index, one weight record per attention layer, the head norm and the
head projection matrix). -/
structure InitWeights where
  base : VQVAEWeights
  embW : ℕ → ℕ → ℕ → ℚ
  layerW : ℕ → LayerWeights
  headNorm : (ℕ → ℚ) → ℕ → ℚ
  headW : ℕ → ℕ → ℚ

/-- Source lines 177-214: `CodeFormer2.__init__`.  The base tokenizer is
always built with `vocab_size=codebook_size, z_channels=32, ch=160,
test_mode=False, share_quant_resi=4, v_patch_nums=(1,2,3,4,5,6,8,10,13,16)`;
a given `vqvae_path` replaces the tokenizer weights (`load_state_dict`);
lines 187-188 set `requires_grad=False` on every parameter existing at that
point (all of them belong to the tokenizer), lines 190-193 redundantly
re-freeze `decoder`, `quantize`, `post_quant_conv`; the modules created
afterwards keep torch's default `requires_grad=True`.  `position_emb` is
`nn.Parameter(torch.zeros(680, dim_embd))`, `feat_emb` is one
`nn.Embedding(codebook_size, dim_embd)` per entry of `patch_hws`, `ft_layers`
are `n_layers` blocks with `dim_mlp = dim_embd * 2` and `dropout=0.0` and the
default `"gelu"` activation, and the head is `LayerNorm` then
`Linear(dim_embd, codebook_size, bias=False)`.  `latent_size` is accepted and
never used. -/
def CodeFormer2.init (dim_embd n_head n_layers codebook_size latent_size : ℕ)
    (connect_list : List String) (vqvae_path : Option VQVAEWeights)
    (W : InitWeights) : CodeFormer2 :=
  let base0 := VQVAE.init codebook_size 32 160 false 4 [1, 2, 3, 4, 5, 6, 8, 10, 13, 16]
      (match vqvae_path with
       | none => W.base
       | some ck => ck)
  let base1 := { base0 with g_encoder := false, g_decoder := false, g_quantize := false,
                            g_quant_conv := false, g_post_quant_conv := false }
  let base2 := { base1 with g_decoder := false, g_quantize := false,
                            g_post_quant_conv := false }
  { base := base2
    connect_list := connect_list
    n_layers := n_layers
    dim_embd := dim_embd
    dim_mlp := dim_embd * 2
    position_emb := ⟨680, dim_embd, fun _ _ => 0⟩
    g_position_emb := true
    feat_emb := (List.range base2.patch_hws.length).map fun i =>
      ⟨codebook_size, dim_embd, W.embW i⟩
    g_feat_emb := true
    ft_layers := (List.range n_layers).map fun i =>
      mkSALayer dim_embd n_head (dim_embd * 2) 0 ActivationKind.gelu (W.layerW i)
    g_ft_layers := true
    idx_pred_norm := W.headNorm
    idx_pred_linear := ⟨dim_embd, codebook_size, W.headW, none⟩
    g_idx_pred_layer := true }

/-- Source line 227-228: `x = self.quant_conv(self.encoder(x)); lq_feat = x`. -/
def CodeFormer2.lq_feat (m : CodeFormer2) (x : Tensor4) : Tensor4 :=
  m.base.encode_quant x

/-- Source line 229: the multi-scale index pyramid of the latent. -/
def CodeFormer2.idx_list (m : CodeFormer2) (x : Tensor4) : List IndexTensor2 :=
  m.base.f_to_idxBl (m.lq_feat x)

/-- Source line 230: `self.position_emb.unsqueeze(1).repeat(1, x.shape[0], 1)`
(at that point `x` is the latent, whose batch dim equals the input's). -/
def CodeFormer2.pos_emb (m : CodeFormer2) (x : Tensor4) : Tensor3 :=
  (m.position_emb.unsqueeze1).repeatDim1 (m.lq_feat x).d0

/-- Source lines 232-234: per-scale lookup, `self.feat_emb[i](idx)` for the
`i`-th entry of `idx_list`. -/
def CodeFormer2.idx_embed_all (m : CodeFormer2) (x : Tensor4) : List Tensor3 :=
  List.zipWith (fun e idx => Embedding.lookup e idx) m.feat_emb (m.idx_list x)

/-- Source line 235: `torch.cat(idx_embed_all, dim=1).permute(1, 0, 2)`. -/
def CodeFormer2.idx_embed (m : CodeFormer2) (x : Tensor4) : Tensor3 :=
  (catDim1 (m.idx_embed_all x)).permute102

/-- Source lines 237-239: the attention stack, each layer fed the same
position embedding as `query_pos`. -/
def CodeFormer2.query_emb (m : CodeFormer2) (P : FPrims) (x : Tensor4) : Tensor3 :=
  m.ft_layers.foldl
    (fun q l => TransformerSALayer.forward P l q none none (some (m.pos_emb x)))
    (m.idx_embed x)

/-- Source lines 225-245: `CodeFormer2.forward`.  The arguments `w`,
`detach_16`, `code_only`, `adain` appear in the signature (defaults `0`,
`True`, `False`, `False`) and are never read in the body. -/
def CodeFormer2.forward (P : FPrims) (m : CodeFormer2) (x : Tensor4)
    (w : ℚ) (detach_16 code_only adain : Bool) : Tensor3 × Tensor4 :=
  let logits :=
    (m.idx_pred_linear.apply ((m.query_emb P x).mapVec m.idx_pred_norm)).permute102
  (logits, m.lq_feat x)

/-- State-passing form of `forward`: the body of the source method contains
no assignment to `self` (it only reads `self.*`), so the post-call model
state is the pre-call one. -/
def CodeFormer2.forwardS (P : FPrims) (m : CodeFormer2) (x : Tensor4)
    (w : ℚ) (detach_16 code_only adain : Bool) : (Tensor3 × Tensor4) × CodeFormer2 :=
  (CodeFormer2.forward P m x w detach_16 code_only adain, m)

/-! Concrete instances used to evaluate the theorems on closed inputs. -/

/-- Trivial stand-ins for the external torch functionals. -/
def P0 : FPrims := ⟨id, id, id⟩

/-- Trivial tokenizer weights. -/
def VW0 : VQVAEWeights := ⟨fun _ _ _ _ _ => 0, fun _ _ _ _ => 0⟩

/-- Trivial attention-layer weights. -/
def LW0 : LayerWeights :=
  ⟨fun q _ _ _ _ => q, fun _ _ => 0, fun _ => 0, fun _ _ => 0, fun _ => 0,
   fun v => v, fun v => v⟩

/-- Trivial default-init weights for the whole model. -/
def W0 : InitWeights := ⟨VW0, fun _ _ _ => 0, fun _ => LW0, fun v => v, fun _ _ => 0⟩

def connect0 : List String := ["32", "64", "128", "256"]

/-- The model of the end-to-end scenario: embedding dim 512, 8 heads, 9
layers, codebook 4096. -/
def m0 : CodeFormer2 := CodeFormer2.init 512 8 9 4096 32 connect0 none W0

/-- A batch of 2 synthetic images of shape (2, 3, 256, 256). -/
def x0 : Tensor4 := ⟨2, 3, 256, 256, fun _ _ _ _ => 0⟩

/-- A sinusoidal position encoder with the default configuration and
normalization off. -/
def pes0 : PositionEmbeddingSine := ⟨64, 10000, false, 0⟩

/-- A small real input tensor of shape (2, 3, 4, 5). -/
def xR0 : RTensor4 := ⟨2, 3, 4, 5, fun _ _ _ _ => 0⟩

/-! Helper lemmas about the concatenation layout and shapes. -/

theorem catDim1_d1 : ∀ ts : List Tensor3, (catDim1 ts).d1 = (ts.map Tensor3.d1).sum
  | [] => rfl
  | t :: ts => by
    simp only [catDim1, List.map_cons, List.sum_cons]
    rw [catDim1_d1 ts]

theorem catDim1_d0_cons (t : Tensor3) (ts : List Tensor3) :
    (catDim1 (t :: ts)).d0 = t.d0 := rfl

theorem catDim1_data_slice : ∀ (ts : List Tensor3) (i : ℕ), i < ts.length →
    ∀ b s d : ℕ, s < (ts.getD i Tensor3.zero).d1 →
    (catDim1 ts).data b ((((ts.take i).map Tensor3.d1).sum) + s) d
      = (ts.getD i Tensor3.zero).data b s d := by
  intro ts
  induction ts with
  | nil => intro i hi; simp at hi
  | cons t rest ih =>
    intro i hi b s d hs
    cases i with
    | zero =>
      simp only [List.getD, List.getElem?_cons_zero, Option.getD_some] at hs ⊢
      simp only [List.take_zero, List.map_nil, List.sum_nil, Nat.zero_add, catDim1]
      exact if_pos hs
    | succ n =>
      have hn : n < rest.length := by simpa using hi
      simp only [List.getD_cons_succ] at hs ⊢
      simp only [List.take_succ_cons, List.map_cons, List.sum_cons, catDim1]
      have h1 : ¬ (t.d1 + (((rest.take n).map Tensor3.d1).sum + s) < t.d1) := by omega
      have h2 : t.d1 + (((rest.take n).map Tensor3.d1).sum + s) - t.d1
          = ((rest.take n).map Tensor3.d1).sum + s := by omega
      rw [Nat.add_assoc, if_neg h1, h2]
      exact ih n hn b s d hs

theorem map_d1_zipWith_lookup : ∀ (as : List Embedding) (bs : List IndexTensor2),
    (List.zipWith Embedding.lookup as bs).map Tensor3.d1
      = (bs.take as.length).map IndexTensor2.d1
  | [], _ => by simp
  | _ :: _, [] => by simp
  | e :: es, t :: ts => by
    simp only [List.zipWith_cons_cons, List.map_cons, List.length_cons,
      List.take_succ_cons]
    rw [map_d1_zipWith_lookup es ts]
    rfl

theorem getD_zipWith_lookup : ∀ (as : List Embedding) (bs : List IndexTensor2) (i : ℕ),
    i < as.length → i < bs.length →
    (List.zipWith Embedding.lookup as bs).getD i Tensor3.zero
      = Embedding.lookup (as.getD i Embedding.zero) (bs.getD i IndexTensor2.zero)
  | [], _, i, ha, _ => by simp at ha
  | _ :: _, [], i, _, hb => by simp at hb
  | e :: es, t :: ts, 0, _, _ => rfl
  | e :: es, t :: ts, n + 1, ha, hb => by
    simp only [List.zipWith_cons_cons, List.getD_cons_succ]
    exact getD_zipWith_lookup es ts n (by simpa using ha) (by simpa using hb)

theorem f_to_idxBl_aux_length (v : VQVAE) (f : Tensor4) :
    ∀ (hws : List (ℕ × ℕ)) (n : ℕ), (v.f_to_idxBl_aux f n hws).length = hws.length
  | [], _ => rfl
  | _ :: rest, n => by
    simp only [VQVAE.f_to_idxBl_aux, List.length_cons]
    rw [f_to_idxBl_aux_length v f rest (n + 1)]

theorem f_to_idxBl_aux_map_d1 (v : VQVAE) (f : Tensor4) :
    ∀ (hws : List (ℕ × ℕ)) (n : ℕ),
    (v.f_to_idxBl_aux f n hws).map IndexTensor2.d1 = hws.map fun p => p.1 * p.2
  | [], _ => rfl
  | hw :: rest, n => by
    simp only [VQVAE.f_to_idxBl_aux, List.map_cons]
    rw [f_to_idxBl_aux_map_d1 v f rest (n + 1)]

theorem f_to_idxBl_aux_getD (v : VQVAE) (f : Tensor4) :
    ∀ (hws : List (ℕ × ℕ)) (n i : ℕ), i < hws.length →
    (v.f_to_idxBl_aux f n hws).getD i IndexTensor2.zero
      = ⟨f.d0, (hws.getD i (0, 0)).1 * (hws.getD i (0, 0)).2,
          fun b l => v.quantFn f (n + i) b l % v.vocab_size⟩
  | [], _, i, hi => by simp at hi
  | hw :: rest, n, 0, _ => by
    simp only [VQVAE.f_to_idxBl_aux, List.getD_cons_zero, Nat.add_zero]
  | hw :: rest, n, i + 1, hi => by
    simp only [VQVAE.f_to_idxBl_aux, List.getD_cons_succ]
    rw [f_to_idxBl_aux_getD v f rest (n + 1) i (by simpa using hi)]
    have : n + 1 + i = n + (i + 1) := by omega
    rw [this]

theorem idx_list_length (m : CodeFormer2) (x : Tensor4) :
    (m.idx_list x).length = m.base.patch_hws.length := by
  simp only [CodeFormer2.idx_list, VQVAE.f_to_idxBl]
  exact f_to_idxBl_aux_length m.base (m.lq_feat x) m.base.patch_hws 0

theorem idx_list_map_d1 (m : CodeFormer2) (x : Tensor4) :
    (m.idx_list x).map IndexTensor2.d1 = m.base.patch_hws.map fun p => p.1 * p.2 := by
  simp only [CodeFormer2.idx_list, VQVAE.f_to_idxBl]
  exact f_to_idxBl_aux_map_d1 m.base (m.lq_feat x) m.base.patch_hws 0

theorem idx_embed_all_map_d1 (m : CodeFormer2) (x : Tensor4)
    (hlen : m.feat_emb.length = m.base.patch_hws.length) :
    (m.idx_embed_all x).map Tensor3.d1 = m.base.patch_hws.map fun p => p.1 * p.2 := by
  rw [CodeFormer2.idx_embed_all, map_d1_zipWith_lookup, hlen, ← idx_list_length m x,
    List.take_length]
  exact idx_list_map_d1 m x

theorem salayer_forward_d0 (P : FPrims) (l : TransformerSALayer) (tgt : Tensor3)
    (tm : Option Tensor3) (kp : Option BoolTensor2) (qp : Option Tensor3) :
    (TransformerSALayer.forward P l tgt tm kp qp).d0 = tgt.d0 := rfl

theorem salayer_forward_d1 (P : FPrims) (l : TransformerSALayer) (tgt : Tensor3)
    (tm : Option Tensor3) (kp : Option BoolTensor2) (qp : Option Tensor3) :
    (TransformerSALayer.forward P l tgt tm kp qp).d1 = tgt.d1 := rfl

theorem salayer_forward_d2 (P : FPrims) (l : TransformerSALayer) (tgt : Tensor3)
    (tm : Option Tensor3) (kp : Option BoolTensor2) (qp : Option Tensor3) :
    (TransformerSALayer.forward P l tgt tm kp qp).d2 = tgt.d2 := rfl

theorem foldl_forward_dims (P : FPrims) (qp : Option Tensor3) :
    ∀ (ls : List TransformerSALayer) (q : Tensor3),
    ((ls.foldl (fun t l => TransformerSALayer.forward P l t none none qp) q).d0 = q.d0)
    ∧ ((ls.foldl (fun t l => TransformerSALayer.forward P l t none none qp) q).d1 = q.d1)
    ∧ ((ls.foldl (fun t l => TransformerSALayer.forward P l t none none qp) q).d2 = q.d2)
  | [], q => ⟨rfl, rfl, rfl⟩
  | l :: ls, q => by
    simp only [List.foldl_cons]
    exact foldl_forward_dims P qp ls (TransformerSALayer.forward P l q none none qp)

/-! The claims. -/

/-- C2: after `CodeFormer2` construction, every parameter group of the
inherited tokenizer (encoder, decoder, quantizer, quant_conv,
post_quant_conv) has `requires_grad = False`, every parameter group of
`feat_emb`, `position_emb`, `ft_layers` and `idx_pred_layer` has
`requires_grad = True`, and a forward call leaves the model state — the
split included — unchanged. -/
theorem CodeFormer2.freeze_policy_spec (de nh nl cb ls : ℕ) (cl : List String)
    (vp : Option VQVAEWeights) (W : InitWeights) (P : FPrims) (x : Tensor4)
    (w : ℚ) (dt co ad : Bool) :
    ((CodeFormer2.init de nh nl cb ls cl vp W).base.g_encoder = false
     ∧ (CodeFormer2.init de nh nl cb ls cl vp W).base.g_decoder = false
     ∧ (CodeFormer2.init de nh nl cb ls cl vp W).base.g_quantize = false
     ∧ (CodeFormer2.init de nh nl cb ls cl vp W).base.g_quant_conv = false
     ∧ (CodeFormer2.init de nh nl cb ls cl vp W).base.g_post_quant_conv = false)
    ∧ ((CodeFormer2.init de nh nl cb ls cl vp W).g_feat_emb = true
     ∧ (CodeFormer2.init de nh nl cb ls cl vp W).g_position_emb = true
     ∧ (CodeFormer2.init de nh nl cb ls cl vp W).g_ft_layers = true
     ∧ (CodeFormer2.init de nh nl cb ls cl vp W).g_idx_pred_layer = true)
    ∧ (CodeFormer2.forwardS P (CodeFormer2.init de nh nl cb ls cl vp W) x w dt co ad).2
        = CodeFormer2.init de nh nl cb ls cl vp W :=
  ⟨⟨rfl, rfl, rfl, rfl, rfl⟩, ⟨rfl, rfl, rfl, rfl⟩, rfl⟩

/-- C3: one `TransformerSALayer.forward` step computes `n1 = norm1 tgt`,
uses `n1 + query_pos` as both query and key (plain `n1` when `query_pos` is
`None`) with `n1` as value, adds the attention output to the un-normalized
residual `tgt`, then normalizes again, applies `linear1`, the configured
activation and `linear2`, and adds the result back, producing an output of
the same shape as `tgt`; the default activation string `"gelu"` resolves to
GELU at construction. -/
theorem TransformerSALayer.salayer_forward_spec (P : FPrims) (l : TransformerSALayer)
    (tgt pos : Tensor3) :
    (TransformerSALayer.forward P l tgt none none (some pos)
      = (let n1 := tgt.mapVec l.norm1
         let qk := n1.add pos
         let res1 := tgt.add (l.self_attn qk qk n1 none none)
         res1.add (l.linear2.apply (l.activation.apply P
           (l.linear1.apply (res1.mapVec l.norm2))))))
    ∧ (TransformerSALayer.forward P l tgt none none none
      = (let n1 := tgt.mapVec l.norm1
         let res1 := tgt.add (l.self_attn n1 n1 n1 none none)
         res1.add (l.linear2.apply (l.activation.apply P
           (l.linear1.apply (res1.mapVec l.norm2))))))
    ∧ ((TransformerSALayer.forward P l tgt none none (some pos)).d0 = tgt.d0
      ∧ (TransformerSALayer.forward P l tgt none none (some pos)).d1 = tgt.d1
      ∧ (TransformerSALayer.forward P l tgt none none (some pos)).d2 = tgt.d2)
    ∧ (∀ (ed nh dm : ℕ) (dp : ℚ) (w : LayerWeights),
        TransformerSALayer.init ed nh dm dp ("gelu") w
          = Except.ok (mkSALayer ed nh dm dp ActivationKind.gelu w)) :=
  ⟨rfl, rfl, ⟨rfl, rfl, rfl⟩, fun _ _ _ _ _ => rfl⟩

/-- C5: with every dropout probability hardcoded to 0 in the constructed
layers, a forward call is a pure function of the model state and input —
equal model states and inputs give equal `(logits, latent)` pairs, the call
does not mutate the model state, and a repeated call on the post-call state
returns the identical result. -/
theorem CodeFormer2.forward_pure_spec :
    (∀ (P : FPrims) (m1 m2 : CodeFormer2) (x1 x2 : Tensor4) (w : ℚ) (dt co ad : Bool),
        m1 = m2 → x1 = x2 →
        CodeFormer2.forward P m1 x1 w dt co ad = CodeFormer2.forward P m2 x2 w dt co ad)
    ∧ (∀ (P : FPrims) (m : CodeFormer2) (x : Tensor4) (w : ℚ) (dt co ad : Bool),
        (CodeFormer2.forwardS P m x w dt co ad).2 = m)
    ∧ (∀ (P : FPrims) (m : CodeFormer2) (x : Tensor4) (w : ℚ) (dt co ad : Bool),
        CodeFormer2.forwardS P (CodeFormer2.forwardS P m x w dt co ad).2 x w dt co ad
          = CodeFormer2.forwardS P m x w dt co ad)
    ∧ (∀ (de nh nl cb ls : ℕ) (cl : List String) (vp : Option VQVAEWeights)
          (W : InitWeights) (l : TransformerSALayer),
        l ∈ (CodeFormer2.init de nh nl cb ls cl vp W).ft_layers →
        l.dropout.p = 0 ∧ l.dropout1.p = 0 ∧ l.dropout2.p = 0) := by
  refine ⟨?_, fun _ _ _ _ _ _ _ => rfl, fun _ _ _ _ _ _ _ => rfl, ?_⟩
  · intro P m1 m2 x1 x2 w dt co ad hm hx
    rw [hm, hx]
  · intro de nh nl cb ls cl vp W l hl
    dsimp only [CodeFormer2.init] at hl
    rw [List.mem_map] at hl
    obtain ⟨i, _, rfl⟩ := hl
    exact ⟨rfl, rfl, rfl⟩

/-- C6: the forward-call arguments `w`, `detach_16`, `code_only`, `adain`
are accepted but never consumed: any two assignments of them give the
identical `(logits, latent)` pair. -/
theorem CodeFormer2.forward_unused_args_spec (P : FPrims) (m : CodeFormer2)
    (x : Tensor4) (w w' : ℚ) (dt dt' co co' ad ad' : Bool) :
    CodeFormer2.forward P m x w dt co ad = CodeFormer2.forward P m x w' dt' co' ad' :=
  rfl

/-- C8: constructing `PositionEmbeddingSine` with an explicit scale while
`normalize` is `False` raises `ValueError`; every other combination
succeeds, and a missing scale defaults to `2 * pi`. -/
theorem PositionEmbeddingSine.init_spec :
    (∀ (npf temp : ℕ) (s : ℝ),
        PositionEmbeddingSine.init npf temp false (some s)
          = Except.error ("normalize should be True if scale is passed"))
    ∧ (∀ (npf temp : ℕ) (normalize : Bool) (scale : Option ℝ),
        (normalize = true ∨ scale = none) →
        PositionEmbeddingSine.init npf temp normalize scale
          = Except.ok ⟨npf, temp, normalize, scale.getD (2 * Real.pi)⟩) := by
  constructor
  · intro npf temp s
    simp [PositionEmbeddingSine.init]
  · intro npf temp normalize scale hcase
    rcases hcase with h | h
    · subst h
      cases scale <;> simp [PositionEmbeddingSine.init]
    · subst h
      simp [PositionEmbeddingSine.init]

/-- C9: `_get_activation_fn` raises a `RuntimeError` exactly for names other
than relu/gelu/glu and otherwise returns the corresponding activation, and a
`TransformerSALayer` construction succeeds or fails exactly as that
resolution does, with no layer record built on failure. -/
theorem activation_fn_spec :
    (_get_activation_fn ("relu") = Except.ok ActivationKind.relu)
    ∧ (_get_activation_fn ("gelu") = Except.ok ActivationKind.gelu)
    ∧ (_get_activation_fn ("glu") = Except.ok ActivationKind.glu)
    ∧ (∀ s : String, s ≠ ("relu") → s ≠ ("gelu") → s ≠ ("glu") →
        _get_activation_fn s
          = Except.error ("activation should be relu/gelu, not " ++ s ++ "."))
    ∧ (∀ (ed nh dm : ℕ) (dp : ℚ) (w : LayerWeights) (s : String),
        (∀ a, _get_activation_fn s = Except.ok a →
          TransformerSALayer.init ed nh dm dp s w
            = Except.ok (mkSALayer ed nh dm dp a w))
        ∧ (∀ e, _get_activation_fn s = Except.error e →
          TransformerSALayer.init ed nh dm dp s w = Except.error e)) := by
  refine ⟨rfl, rfl, rfl, ?_, ?_⟩
  · intro s h1 h2 h3
    simp [_get_activation_fn, h1, h2, h3]
  · intro ed nh dm dp w s
    constructor
    · intro a ha
      simp [TransformerSALayer.init, ha, Except.map]
    · intro e he
      simp [TransformerSALayer.init, he, Except.map]

/-- C10: the constructor arguments `latent_size` and `connect_list` never
influence the forward computation — the tokenizer is always built with
`z_channels=32, ch=160, v_patch_nums=(1,2,3,4,5,6,8,10,13,16)` and the
vocabulary equal to the codebook size, and two models built identically
except for `latent_size` and `connect_list` produce identical forward
outputs on every input. -/
theorem CodeFormer2.unused_config_spec (P : FPrims) (W : InitWeights)
    (de nh nl cb ls1 ls2 : ℕ) (cl1 cl2 : List String) (vp : Option VQVAEWeights)
    (x : Tensor4) (w : ℚ) (dt co ad : Bool) :
    ((CodeFormer2.init de nh nl cb ls1 cl1 vp W).base.vocab_size = cb
     ∧ (CodeFormer2.init de nh nl cb ls1 cl1 vp W).base.z_channels = 32
     ∧ (CodeFormer2.init de nh nl cb ls1 cl1 vp W).base.ch = 160
     ∧ (CodeFormer2.init de nh nl cb ls1 cl1 vp W).base.v_patch_nums
         = [1, 2, 3, 4, 5, 6, 8, 10, 13, 16])
    ∧ CodeFormer2.forward P (CodeFormer2.init de nh nl cb ls1 cl1 vp W) x w dt co ad
        = CodeFormer2.forward P (CodeFormer2.init de nh nl cb ls2 cl2 vp W) x w dt co ad :=
  ⟨⟨rfl, rfl, rfl, rfl⟩, rfl⟩

/-- C1: for every input batch, `CodeFormer2.forward` returns `(logits,
latent)` with `logits` of shape `(batch, L, codebook_size)` where `L` is the
sum of `ph * pw` over the configured scales — 680 for the configured patch
sizes `(1,2,3,4,5,6,8,10,13,16)` — and `latent` of shape
`(batch, 32, 16, 16)`. -/
theorem CodeFormer2.forward_shape_spec (P : FPrims) (m : CodeFormer2) (x : Tensor4)
    (w : ℚ) (dt co ad : Bool)
    (h1 : m.base.v_patch_nums = [1, 2, 3, 4, 5, 6, 8, 10, 13, 16])
    (h2 : m.base.z_channels = 32)
    (h3 : m.feat_emb.length = m.base.patch_hws.length)
    (h4 : m.idx_pred_linear.outF = m.base.vocab_size) :
    ((CodeFormer2.forward P m x w dt co ad).1.d0 = x.d0
     ∧ (CodeFormer2.forward P m x w dt co ad).1.d1
         = (m.base.patch_hws.map fun p => p.1 * p.2).sum
     ∧ (CodeFormer2.forward P m x w dt co ad).1.d1 = 680
     ∧ (CodeFormer2.forward P m x w dt co ad).1.d2 = m.base.vocab_size)
    ∧ ((CodeFormer2.forward P m x w dt co ad).2.d0 = x.d0
     ∧ (CodeFormer2.forward P m x w dt co ad).2.d1 = 32
     ∧ (CodeFormer2.forward P m x w dt co ad).2.d2 = 16
     ∧ (CodeFormer2.forward P m x w dt co ad).2.d3 = 16) := by
  have hph : m.base.patch_hws
      = [(1, 1), (2, 2), (3, 3), (4, 4), (5, 5), (6, 6), (8, 8), (10, 10),
         (13, 13), (16, 16)] := by
    rw [VQVAE.patch_hws, h1]
    rfl
  have hlen10 : m.feat_emb.length = 10 := by
    rw [h3, hph]
    rfl
  obtain ⟨e, es, hfe⟩ : ∃ e es, m.feat_emb = e :: es := by
    cases hm : m.feat_emb with
    | nil => rw [hm] at hlen10; simp at hlen10
    | cons a l => exact ⟨a, l, rfl⟩
  have hcat0 : (catDim1 (m.idx_embed_all x)).d0 = x.d0 := by
    rw [CodeFormer2.idx_embed_all, hfe, CodeFormer2.idx_list, VQVAE.f_to_idxBl, hph]
    rfl
  have hsum : (catDim1 (m.idx_embed_all x)).d1
      = (m.base.patch_hws.map fun p => p.1 * p.2).sum := by
    rw [catDim1_d1, idx_embed_all_map_d1 m x h3]
  have hsum680 : ((m.base.patch_hws.map fun p => p.1 * p.2).sum) = 680 := by
    rw [hph]
    rfl
  have hfold := foldl_forward_dims P (some (m.pos_emb x)) m.ft_layers (m.idx_embed x)
  have hq0 : (m.query_emb P x).d0 = (catDim1 (m.idx_embed_all x)).d1 := by
    rw [CodeFormer2.query_emb]
    exact hfold.1
  have hq1 : (m.query_emb P x).d1 = (catDim1 (m.idx_embed_all x)).d0 := by
    rw [CodeFormer2.query_emb]
    exact hfold.2.1
  refine ⟨⟨?_, ?_, ?_, ?_⟩, rfl, h2, ?_, ?_⟩
  · show (m.query_emb P x).d1 = x.d0
    rw [hq1, hcat0]
  · show (m.query_emb P x).d0 = (m.base.patch_hws.map fun p => p.1 * p.2).sum
    rw [hq0, hsum]
  · show (m.query_emb P x).d0 = 680
    rw [hq0, hsum, hsum680]
  · exact h4
  · show ((m.base.v_patch_nums.getLast?).getD 0) = 16
    rw [h1]
    rfl
  · show ((m.base.v_patch_nums.getLast?).getD 0) = 16
    rw [h1]
    rfl

/-- C4: in the concatenated token-embedding sequence of
`CodeFormer2.forward`, the embedded tokens of pyramid level `i` occupy the
contiguous slice starting at the sum of `ph * pw` over scales `0..i-1` with
length `ph_i * pw_i`, and level `i` is embedded with the `i`-th table
`feat_emb[i]` applied to the `i`-th index tensor. -/
theorem CodeFormer2.pyramid_slice_spec (m : CodeFormer2) (x : Tensor4)
    (i b s d : ℕ)
    (hlen : m.feat_emb.length = m.base.patch_hws.length)
    (hi : i < m.base.patch_hws.length)
    (hs : s < (m.base.patch_hws.getD i (0, 0)).1 * (m.base.patch_hws.getD i (0, 0)).2) :
    (catDim1 (m.idx_embed_all x)).data b
        ((((m.base.patch_hws.take i).map fun p => p.1 * p.2).sum) + s) d
      = (Embedding.lookup (m.feat_emb.getD i Embedding.zero)
          ((m.idx_list x).getD i IndexTensor2.zero)).data b s d := by
  have hfl : i < m.feat_emb.length := by rw [hlen]; exact hi
  have hil : i < (m.idx_list x).length := by rw [idx_list_length]; exact hi
  have hgetidx : (m.idx_list x).getD i IndexTensor2.zero
      = ⟨(m.lq_feat x).d0,
         (m.base.patch_hws.getD i (0, 0)).1 * (m.base.patch_hws.getD i (0, 0)).2,
         fun b l => m.base.quantFn (m.lq_feat x) (0 + i) b l % m.base.vocab_size⟩ := by
    rw [CodeFormer2.idx_list, VQVAE.f_to_idxBl]
    exact f_to_idxBl_aux_getD m.base (m.lq_feat x) m.base.patch_hws 0 i hi
  have hgetAll : (m.idx_embed_all x).getD i Tensor3.zero
      = Embedding.lookup (m.feat_emb.getD i Embedding.zero)
          ((m.idx_list x).getD i IndexTensor2.zero) := by
    rw [CodeFormer2.idx_embed_all]
    exact getD_zipWith_lookup m.feat_emb (m.idx_list x) i hfl hil
  have hslen : i < (m.idx_embed_all x).length := by
    rw [CodeFormer2.idx_embed_all, List.length_zipWith]
    exact lt_min_iff.mpr ⟨hfl, hil⟩
  have hsd : s < ((m.idx_embed_all x).getD i Tensor3.zero).d1 := by
    rw [hgetAll, hgetidx]
    exact hs
  have hoff : ((m.idx_embed_all x).take i).map Tensor3.d1
      = (m.base.patch_hws.take i).map fun p => p.1 * p.2 := by
    rw [List.map_take, idx_embed_all_map_d1 m x hlen, List.map_take]
  have hmain := catDim1_data_slice (m.idx_embed_all x) i hslen b s d hsd
  rw [hoff, hgetAll] at hmain
  exact hmain

/-- C7: with the default all-valid mask and normalization off,
`PositionEmbeddingSine.forward` returns a `(batch, 2*num_pos_feats, H, W)`
tensor whose first `num_pos_feats` channels encode the y-axis index `i + 1`
and whose remaining channels encode the x-axis index `j + 1`, each divided
by `temperature ^ (2 * (c / 2) / num_pos_feats)` for within-block channel
`c` (integer division pairing channels `2t` and `2t + 1`, the standard
transformer convention), with sine at even channel indices and cosine at odd
ones. -/
theorem PositionEmbeddingSine.sine_forward_spec (pes : PositionEmbeddingSine)
    (h : pes.normalize = false) (x : RTensor4) (b c i j : ℕ) :
    ((pes.forward x none).d0 = x.d0
     ∧ (pes.forward x none).d1 = 2 * pes.num_pos_feats
     ∧ (pes.forward x none).d2 = x.d2
     ∧ (pes.forward x none).d3 = x.d3)
    ∧ (c < pes.num_pos_feats →
        (pes.forward x none).data b c i j
          = if c % 2 = 0 then
              Real.sin (((i : ℝ) + 1)
                / (pes.temperature : ℝ)
                    ^ (((2 * (c / 2) : ℕ) : ℝ) / (pes.num_pos_feats : ℝ)))
            else
              Real.cos (((i : ℝ) + 1)
                / (pes.temperature : ℝ)
                    ^ (((2 * (c / 2) : ℕ) : ℝ) / (pes.num_pos_feats : ℝ))))
    ∧ (pes.num_pos_feats ≤ c →
        (pes.forward x none).data b c i j
          = if (c - pes.num_pos_feats) % 2 = 0 then
              Real.sin (((j : ℝ) + 1)
                / (pes.temperature : ℝ)
                    ^ (((2 * ((c - pes.num_pos_feats) / 2) : ℕ) : ℝ)
                        / (pes.num_pos_feats : ℝ)))
            else
              Real.cos (((j : ℝ) + 1)
                / (pes.temperature : ℝ)
                    ^ (((2 * ((c - pes.num_pos_feats) / 2) : ℕ) : ℝ)
                        / (pes.num_pos_feats : ℝ)))) := by
  refine ⟨⟨rfl, rfl, rfl, rfl⟩, ?_, ?_⟩
  · intro hc
    simp only [PositionEmbeddingSine.forward, h, Bool.false_eq_true, if_false,
      Bool.not_false, if_true, hc, Finset.sum_const, Finset.card_range,
      nsmul_eq_mul, mul_one, Nat.cast_add, Nat.cast_one]
  · intro hc
    have hc2 : ¬ c < pes.num_pos_feats := not_lt.mpr hc
    simp only [PositionEmbeddingSine.forward, h, Bool.false_eq_true, if_false,
      Bool.not_false, if_true, hc2, Finset.sum_const, Finset.card_range,
      nsmul_eq_mul, mul_one, Nat.cast_add, Nat.cast_one]

/-! Closed-instance evaluations of the theorems with hypotheses. -/

/-- Evaluation of `CodeFormer2.forward_shape_spec` on the end-to-end
scenario instance. -/
theorem CodeFormer2.forward_shape_witness :
    ((CodeFormer2.forward P0 m0 x0 0 true false false).1.d0 = x0.d0
     ∧ (CodeFormer2.forward P0 m0 x0 0 true false false).1.d1
         = (m0.base.patch_hws.map fun p => p.1 * p.2).sum
     ∧ (CodeFormer2.forward P0 m0 x0 0 true false false).1.d1 = 680
     ∧ (CodeFormer2.forward P0 m0 x0 0 true false false).1.d2 = m0.base.vocab_size)
    ∧ ((CodeFormer2.forward P0 m0 x0 0 true false false).2.d0 = x0.d0
     ∧ (CodeFormer2.forward P0 m0 x0 0 true false false).2.d1 = 32
     ∧ (CodeFormer2.forward P0 m0 x0 0 true false false).2.d2 = 16
     ∧ (CodeFormer2.forward P0 m0 x0 0 true false false).2.d3 = 16) :=
  CodeFormer2.forward_shape_spec P0 m0 x0 0 true false false rfl rfl (by decide) rfl

/-- Evaluation of `CodeFormer2.pyramid_slice_spec` at pyramid level 2 and
slice position 3. -/
theorem CodeFormer2.pyramid_slice_witness :
    (catDim1 (m0.idx_embed_all x0)).data 0
        ((((m0.base.patch_hws.take 2).map fun p => p.1 * p.2).sum) + 3) 0
      = (Embedding.lookup (m0.feat_emb.getD 2 Embedding.zero)
          ((m0.idx_list x0).getD 2 IndexTensor2.zero)).data 0 3 0 :=
  CodeFormer2.pyramid_slice_spec m0 x0 2 0 3 0 (by decide) (by decide) (by decide)

/-- Evaluation of `CodeFormer2.forward_pure_spec` on the scenario instance. -/
theorem CodeFormer2.forward_pure_witness :
    CodeFormer2.forward P0 m0 x0 0 true false false
        = CodeFormer2.forward P0 m0 x0 0 true false false
    ∧ ((mkSALayer 512 8 (512 * 2) 0 ActivationKind.gelu (W0.layerW 0)).dropout.p = 0
       ∧ (mkSALayer 512 8 (512 * 2) 0 ActivationKind.gelu (W0.layerW 0)).dropout1.p = 0
       ∧ (mkSALayer 512 8 (512 * 2) 0 ActivationKind.gelu (W0.layerW 0)).dropout2.p = 0) := by
  constructor
  · exact CodeFormer2.forward_pure_spec.1 P0 m0 m0 x0 x0 0 true false false rfl rfl
  · refine CodeFormer2.forward_pure_spec.2.2.2 512 8 9 4096 32 connect0 none W0
      (mkSALayer 512 8 (512 * 2) 0 ActivationKind.gelu (W0.layerW 0)) ?_
    dsimp only [CodeFormer2.init]
    exact List.mem_map.mpr ⟨0, by simp, rfl⟩

/-- Evaluation of `PositionEmbeddingSine.sine_forward_spec` at batch 0, channel
2, position (1, 3). -/
theorem PositionEmbeddingSine.sine_forward_witness :
    pes0.normalize = false
    ∧ (pes0.forward xR0 none).d1 = 2 * pes0.num_pos_feats
    ∧ ((pes0.forward xR0 none).data 0 2 1 3
        = if 2 % 2 = 0 then
            Real.sin ((((1 : ℕ) : ℝ) + 1)
              / (pes0.temperature : ℝ)
                  ^ (((2 * (2 / 2) : ℕ) : ℝ) / (pes0.num_pos_feats : ℝ)))
          else
            Real.cos ((((1 : ℕ) : ℝ) + 1)
              / (pes0.temperature : ℝ)
                  ^ (((2 * (2 / 2) : ℕ) : ℝ) / (pes0.num_pos_feats : ℝ)))) := by
  have h := PositionEmbeddingSine.sine_forward_spec pes0 rfl xR0 0 2 1 3
  exact ⟨rfl, h.1.2.1, h.2.1 (by decide)⟩

/-- Evaluation of `PositionEmbeddingSine.init_spec` on both branches. -/
theorem PositionEmbeddingSine.init_witness :
    PositionEmbeddingSine.init 64 10000 false (some 5)
        = Except.error ("normalize should be True if scale is passed")
    ∧ PositionEmbeddingSine.init 64 10000 true none
        = Except.ok ⟨64, 10000, true, (none : Option ℝ).getD (2 * Real.pi)⟩ :=
  ⟨PositionEmbeddingSine.init_spec.1 64 10000 5,
   PositionEmbeddingSine.init_spec.2 64 10000 true none (Or.inr rfl)⟩

/-- Evaluation of `activation_fn_spec` at the unsupported name `"tanh"` and
the supported name `"gelu"`. -/
theorem activation_fn_witness :
    _get_activation_fn ("tanh")
        = Except.error ("activation should be relu/gelu, not " ++ "tanh" ++ ".")
    ∧ TransformerSALayer.init 512 8 1024 0 ("tanh") LW0
        = Except.error ("activation should be relu/gelu, not " ++ "tanh" ++ ".")
    ∧ TransformerSALayer.init 512 8 1024 0 ("gelu") LW0
        = Except.ok (mkSALayer 512 8 1024 0 ActivationKind.gelu LW0) := by
  have h := activation_fn_spec
  have e1 := h.2.2.2.1 ("tanh") (by decide) (by decide) (by decide)
  exact ⟨e1, (h.2.2.2.2 512 8 1024 0 LW0 ("tanh")).2 _ e1,
    (h.2.2.2.2 512 8 1024 0 LW0 ("gelu")).1 ActivationKind.gelu h.2.1⟩
